import Mathlib

/-!
Verification development for a small HTTP service (`app/` package):
configuration (`app/config.py`), request/response schemas (`app/schemas.py`),
a structured-logging middleware (`app/logging_middleware.py`) and three route
handlers (`app/main.py`).  Python values are embedded shallowly: machine
floats from `time.time()` become rationals, `datetime` values become an
abstract timestamp, JSON bodies become an inductive `Json`, exceptions become
`Except`, and the log sink becomes the explicit list of records a dispatch
emits.
-/

namespace DockerizedApi

/-- JSON values, the shape of request bodies and serialized responses. -/
inductive Json where
  | null : Json
  | str (s : String) : Json
  | num (n : Int) : Json
  | bool (b : Bool) : Json
  | arr (xs : List Json) : Json
  | obj (fields : List (String × Json)) : Json

/-- Field access on a JSON object: the value bound to key `k`, if any. -/
def Json.lookup (j : Json) (k : String) : Option Json :=
  match j with
  | .obj fields => (fields.find? (fun p => p.1 == k)).map (·.2)
  | _ => none

/-- `round(x, 2)` from Python as used in `app/`: round to 2 decimal places.
(Tie behaviour is irrelevant to every property proved here.) -/
def round2 (q : ℚ) : ℚ := (round (q * 100) : ℚ) / 100

/-- `app/config.py`, class `Settings`: process-wide settings loaded from
environment variables. -/
structure Settings where
  SERVICE_NAME : String
  ENV : String
  LOG_LEVEL : String
  GIT_SHA : Option String
  HOST : String
  PORT : Int
deriving DecidableEq, Repr

/-- `str.lower()` as used by `Settings`: lower-case the string character by
character (the same character map as Lean's `String.toLower`). -/
def pyLower (s : String) : String := ⟨s.data.map Char.toLower⟩

/-- `Settings.is_production`: `self.ENV.lower() == "production"`. -/
def Settings.is_production (s : Settings) : Bool :=
  pyLower s.ENV == "production"

/-- `Settings.is_development`: `self.ENV.lower() == "development"`. -/
def Settings.is_development (s : Settings) : Bool :=
  pyLower s.ENV == "development"

/-- `datetime` values are embedded as abstract rational timestamps. -/
abbrev DateTime := ℚ

/-- `app/schemas.py`, `HealthResponse`. -/
structure HealthResponse where
  status : String
deriving DecidableEq, Repr

/-- `app/schemas.py`, `InfoResponse`. -/
structure InfoResponse where
  service_name : String
  version : String
  git_sha : Option String
  uptime_seconds : ℚ
deriving DecidableEq, Repr

/-- `app/schemas.py`, `EchoRequest`. -/
structure EchoRequest where
  message : String
deriving DecidableEq, Repr

/-- `app/schemas.py`, `EchoResponse`. -/
structure EchoResponse where
  message : String
  timestamp : DateTime
deriving DecidableEq, Repr

/-- Serialization of a `HealthResponse` to its JSON body. -/
def HealthResponse.toJson (h : HealthResponse) : Json :=
  .obj [("status", .str h.status)]

/-- `app/main.py`, `health_check`: returns `HealthResponse(status="ok")`. -/
def health_check : HealthResponse := { status := "ok" }

/-- The `GET /health` route as the framework serves it: HTTP status 200 and
the serialized body of `health_check`.  The handler is a pure value: it has
no effect besides producing this pair. -/
def health_route : Int × Json := (200, health_check.toJson)

/-- `app/main.py`, `get_info`: uptime is `time.time() - startup_time` rounded
to 2 decimals; the clock reading `now` and the process-start reading
`startup_time` are explicit arguments. -/
def get_info (settings : Settings) (startup_time : ℚ) (now : ℚ) : InfoResponse :=
  { service_name := settings.SERVICE_NAME
    version := "1.0.0"
    git_sha := settings.GIT_SHA
    uptime_seconds := round2 (now - startup_time) }

/-- `app/main.py`, `echo_message`: echoes the validated request's message with
the current UTC time (`datetime.utcnow()`, passed as `now`). -/
def echo_message (request : EchoRequest) (now : DateTime) : EchoResponse :=
  { message := request.message, timestamp := now }

/-- A structured validation error: field path plus reason, as carried by the
422 payload. -/
structure ValidationError where
  loc : List String
  msg : String
deriving DecidableEq, Repr

/-- Modelled from the spec: the coercion the validation layer applies to the
value bound to `message` (the pydantic layer itself is not part of the
repository source).  A string is accepted as-is; a non-string value
structurally coercible to string — numeric input — is converted to its
string form; anything else is not coercible. -/
def coerceToString : Json → Option String
  | .str s => some s
  | .num n => some (toString n)
  | _ => none

/-- Modelled from the spec: validation of a `POST /echo` body against
`EchoRequest` (`message: str = Field(...)` in `app/schemas.py`), performed by
the framework before the handler body executes.  A missing or null `message`
fails validation with a structured error naming the field path. -/
def validateEchoRequest (body : Json) : Except ValidationError EchoRequest :=
  match body.lookup "message" with
  | none => .error { loc := ["body", "message"], msg := "field required" }
  | some .null => .error { loc := ["body", "message"], msg := "none is not an allowed value" }
  | some v =>
    match coerceToString v with
    | some s => .ok { message := s }
    | none => .error { loc := ["body", "message"], msg := "str type expected" }

/-- The `POST /echo` route as the framework serves it: the body is validated
first; only a validated request reaches `echo_message`.  `.inl` is the 422
rejection with its structured payload, `.inr` the 200 success. -/
def echo_route (body : Json) (now : DateTime) : ValidationError ⊕ EchoResponse :=
  match validateEchoRequest body with
  | .error e => .inl e
  | .ok request => .inr (echo_message request now)

/-- HTTP status of an `echo_route` outcome: 422 on rejection, 200 on success. -/
def echoStatus : ValidationError ⊕ EchoResponse → Int
  | .inl _ => 422
  | .inr _ => 200

/-- An inbound HTTP request as the middleware sees it: `request.method` and
`request.url.path`. -/
structure Request where
  method : String
  path : String
deriving DecidableEq, Repr

/-- An HTTP response as the middleware sees it: its status code and its
(mutable, here functionally updated) header mapping. -/
structure Response where
  status_code : Int
  headers : List (String × String)
deriving DecidableEq, Repr

/-- `response.headers[k] = v`: set header `k` to `v`, replacing any earlier
binding for the same key. -/
def setHeader (hs : List (String × String)) (k v : String) : List (String × String) :=
  hs.filter (fun p => p.1 != k) ++ [(k, v)]

/-- Read header `k` from a header mapping. -/
def getHeader (hs : List (String × String)) (k : String) : Option String :=
  (hs.find? (fun p => p.1 == k)).map (·.2)

/-- One structured log line, the `log_data` dict built by
`StructuredLoggingMiddleware.dispatch` (`error` is present only on the
exception path). -/
structure LogRecord where
  level : String
  method : String
  path : String
  status_code : Int
  latency_ms : ℚ
  request_id : String
  error : Option String
deriving DecidableEq, Repr

/-- `app/logging_middleware.py`, `StructuredLoggingMiddleware.dispatch`.
The freshly generated `uuid.uuid4()` string is the argument `request_id`;
the two `time.time()` readings (before invoking `call_next`, and after it
completes or fails) are `t0` and `t1`; a raised exception is the `.error`
of `call_next`, carrying its string representation.  The result pairs the
middleware's outcome (the returned response, or the re-raised exception
propagated unchanged) with the list of log records it emitted. -/
def dispatch (request_id : String) (t0 t1 : ℚ) (request : Request)
    (call_next : Request → Except String Response) :
    Except String Response × List LogRecord :=
  match call_next request with
  | .error e =>
    (.error e,
     [{ level := "ERROR"
        method := request.method
        path := request.path
        status_code := 500
        latency_ms := round2 ((t1 - t0) * 1000)
        request_id := request_id
        error := some e }])
  | .ok response =>
    (.ok { response with headers := setHeader response.headers "X-Request-ID" request_id },
     [{ level := "INFO"
        method := request.method
        path := request.path
        status_code := response.status_code
        latency_ms := round2 ((t1 - t0) * 1000)
        request_id := request_id
        error := none }])

theorem round2_mono {x y : ℚ} (h : x ≤ y) : round2 x ≤ round2 y := by
  unfold round2
  have hfl : round (x * 100) ≤ round (y * 100) := by
    rw [round_eq, round_eq]
    exact Int.floor_le_floor (by linarith)
  have hq : ((round (x * 100) : ℤ) : ℚ) ≤ ((round (y * 100) : ℤ) : ℚ) := by
    exact_mod_cast hfl
  linarith

theorem round2_nonneg {x : ℚ} (h : 0 ≤ x) : 0 ≤ round2 x := by
  have h0 : round2 0 ≤ round2 x := round2_mono h
  have : round2 0 = 0 := by
    unfold round2
    simp
  linarith [h0, this.symm.le]

theorem getHeader_setHeader (hs : List (String × String)) (k v : String) :
    getHeader (setHeader hs k v) k = some v := by
  unfold getHeader setHeader
  induction hs with
  | nil => simp
  | cons p ps ih =>
    by_cases hp : p.1 = k
    · simp only [List.filter_cons]
      have : (p.1 != k) = false := by simp [hp]
      rw [this]
      simp only [Bool.false_eq_true, if_false]
      exact ih
    · simp only [List.filter_cons]
      have : (p.1 != k) = true := by simpa using hp
      rw [this]
      simp only [if_true, List.cons_append, List.find?]
      have : (p.1 == k) = false := by simpa using hp
      rw [this]
      exact ih

theorem dispatch_of_error (request_id : String) (t0 t1 : ℚ) (request : Request)
    (call_next : Request → Except String Response) (e : String)
    (h : call_next request = .error e) :
    dispatch request_id t0 t1 request call_next =
      (.error e,
       [{ level := "ERROR", method := request.method, path := request.path,
          status_code := 500, latency_ms := round2 ((t1 - t0) * 1000),
          request_id := request_id, error := some e }]) := by
  unfold dispatch
  rw [h]

theorem dispatch_of_ok (request_id : String) (t0 t1 : ℚ) (request : Request)
    (call_next : Request → Except String Response) (response : Response)
    (h : call_next request = .ok response) :
    dispatch request_id t0 t1 request call_next =
      (.ok { response with
              headers := setHeader response.headers "X-Request-ID" request_id },
       [{ level := "INFO", method := request.method, path := request.path,
          status_code := response.status_code,
          latency_ms := round2 ((t1 - t0) * 1000),
          request_id := request_id, error := none }]) := by
  unfold dispatch
  rw [h]

theorem dispatch_log_request_id (request_id : String) (t0 t1 : ℚ) (request : Request)
    (call_next : Request → Except String Response) :
    ∀ rec ∈ (dispatch request_id t0 t1 request call_next).2,
      rec.request_id = request_id := by
  intro rec hrec
  cases hc : call_next request with
  | error e =>
    rw [dispatch_of_error _ _ _ _ _ _ hc] at hrec
    simp at hrec
    subst hrec
    rfl
  | ok response =>
    rw [dispatch_of_ok _ _ _ _ _ _ hc] at hrec
    simp at hrec
    subst hrec
    rfl

/-- Claim C6: `GET /health` always returns HTTP 200 with body
`{"status":"ok"}`; the handler is a pure value, so it has no side effect
beyond the middleware's logging. -/
theorem health_route_ok :
    health_route = (200, Json.obj [("status", Json.str "ok")]) ∧
    health_check = { status := "ok" } :=
  ⟨rfl, rfl⟩

/-- Claim C2: for every valid `EchoRequest` — every string `m`, the empty
string included — `POST /echo` succeeds with HTTP 200 and an `EchoResponse`
whose `message` is exactly the input and whose `timestamp` is the current
UTC time at response construction (the clock reading `now`). -/
theorem echo_route_success (m : String) (now : DateTime) :
    echo_route (Json.obj [("message", Json.str m)]) now
      = .inr { message := m, timestamp := now } ∧
    echoStatus (echo_route (Json.obj [("message", Json.str m)]) now) = 200 :=
  ⟨rfl, rfl⟩

/-- Claim C9: a `POST /echo` body whose `message` is a number — a non-string
structurally coercible to string — passes validation and the echoed message
is that value converted to its string form. -/
theorem echo_route_numeric_coercion (n : Int) (now : DateTime) :
    echo_route (Json.obj [("message", Json.num n)]) now
      = .inr { message := toString n, timestamp := now } :=
  rfl

/-- Claim C10: for every `ENV` value, `is_production` and `is_development`
are never both true — each is a case-insensitive equality against a distinct
literal — and both are false for any other environment tag. -/
theorem settings_env_exclusive (s : Settings) :
    (¬(s.is_production = true ∧ s.is_development = true)) ∧
    (pyLower s.ENV ≠ "production" → s.is_production = false) ∧
    (pyLower s.ENV ≠ "development" → s.is_development = false) := by
  refine ⟨?_, ?_, ?_⟩
  · rintro ⟨hp, hd⟩
    rw [Settings.is_production, beq_iff_eq] at hp
    rw [Settings.is_development, beq_iff_eq] at hd
    rw [hp] at hd
    exact absurd hd (by decide)
  · intro h
    rw [Settings.is_production]
    exact beq_eq_false_iff_ne.mpr h
  · intro h
    rw [Settings.is_development]
    exact beq_eq_false_iff_ne.mpr h

/-- Witness for C10 at the ENV tag "test". -/
theorem settings_env_exclusive_witness :
    let s : Settings :=
      { SERVICE_NAME := "dockerized-api", ENV := "test", LOG_LEVEL := "INFO",
        GIT_SHA := none, HOST := "0.0.0.0", PORT := 8000 }
    (¬(s.is_production = true ∧ s.is_development = true)) ∧
    s.is_production = false ∧ s.is_development = false := by
  refine ⟨(settings_env_exclusive _).1, ?_, ?_⟩
  · exact (settings_env_exclusive _).2.1 (by decide)
  · exact (settings_env_exclusive _).2.2 (by decide)

/-- Claim C4: when the handler chain raises, the middleware emits exactly one
log record, with level ERROR, status_code fixed at 500 and the failure's
string representation, and propagates the original failure unchanged. -/
theorem dispatch_error_path (request_id : String) (t0 t1 : ℚ) (request : Request)
    (e : String) (call_next : Request → Except String Response)
    (h : call_next request = .error e) :
    dispatch request_id t0 t1 request call_next =
      (.error e,
       [{ level := "ERROR", method := request.method, path := request.path,
          status_code := 500, latency_ms := round2 ((t1 - t0) * 1000),
          request_id := request_id, error := some e }]) := by
  unfold dispatch
  rw [h]

/-- Witness for C4: a handler that raises "boom" on `GET /boom`. -/
theorem dispatch_error_path_witness :
    dispatch "rid-4" 0 1 { method := "GET", path := "/boom" }
      (fun _ => .error "boom") =
      (.error "boom",
       [{ level := "ERROR", method := "GET", path := "/boom",
          status_code := 500, latency_ms := round2 ((1 - 0) * 1000),
          request_id := "rid-4", error := some "boom" }]) :=
  dispatch_error_path "rid-4" 0 1 { method := "GET", path := "/boom" }
    "boom" (fun _ => .error "boom") rfl

/-- Claim C3: a `POST /echo` body with `message` missing or null is rejected
with HTTP 422 and a structured validation-error payload naming the field
path, before the handler body runs; the handler (`.inr` outcome) is reached
only when `message` is present and non-null. -/
theorem echo_route_validation (body : Json) (now : DateTime) :
    ((body.lookup "message" = none ∨ body.lookup "message" = some Json.null) →
      ∃ e : ValidationError, echo_route body now = .inl e ∧
        e.loc = ["body", "message"] ∧ echoStatus (echo_route body now) = 422) ∧
    (∀ resp : EchoResponse, echo_route body now = .inr resp →
      ∃ v, body.lookup "message" = some v ∧ v ≠ Json.null) := by
  constructor
  · rintro (h | h)
    · have hr : echo_route body now
          = Sum.inl { loc := ["body", "message"], msg := "field required" } := by
        unfold echo_route validateEchoRequest
        rw [h]
      exact ⟨_, hr, rfl, by rw [hr]; rfl⟩
    · have hr : echo_route body now
          = Sum.inl { loc := ["body", "message"],
                      msg := "none is not an allowed value" } := by
        unfold echo_route validateEchoRequest
        rw [h]
      exact ⟨_, hr, rfl, by rw [hr]; rfl⟩
  · intro resp hresp
    cases h : body.lookup "message" with
    | none =>
      unfold echo_route validateEchoRequest at hresp
      rw [h] at hresp
      simp at hresp
    | some v =>
      cases v
      case null =>
        unfold echo_route validateEchoRequest at hresp
        rw [h] at hresp
        simp at hresp
      all_goals exact ⟨_, rfl, fun hc => Json.noConfusion hc⟩

/-- Witness for C3: the empty body `{}` is rejected with a 422 naming
`body.message`. -/
theorem echo_route_validation_witness :
    ∃ e : ValidationError, echo_route (Json.obj []) 0 = .inl e ∧
      e.loc = ["body", "message"] ∧ echoStatus (echo_route (Json.obj []) 0) = 422 :=
  (echo_route_validation (Json.obj []) 0).1 (Or.inl rfl)

/-- Claim C5: every request processed by the middleware reaches exactly one
of the two terminal states — success logged at INFO, or failure logged at
ERROR — and in either case exactly one log record is emitted, whose method,
path and status code match the request and its outcome. -/
theorem dispatch_terminal_states (request_id : String) (t0 t1 : ℚ)
    (request : Request) (call_next : Request → Except String Response) :
    ∃ rec : LogRecord, (dispatch request_id t0 t1 request call_next).2 = [rec] ∧
      rec.method = request.method ∧ rec.path = request.path ∧
      Xor'
        (∃ resp, (dispatch request_id t0 t1 request call_next).1 = .ok resp ∧
          rec.level = "INFO" ∧ rec.status_code = resp.status_code)
        (∃ e, (dispatch request_id t0 t1 request call_next).1 = .error e ∧
          rec.level = "ERROR" ∧ rec.status_code = 500) := by
  cases h : call_next request with
  | error e =>
    rw [dispatch_of_error _ _ _ _ _ _ h]
    refine ⟨_, rfl, rfl, rfl, Or.inr ⟨⟨e, rfl, rfl, rfl⟩, ?_⟩⟩
    rintro ⟨resp, hresp, -, -⟩
    exact absurd hresp (by simp)
  | ok response =>
    rw [dispatch_of_ok _ _ _ _ _ _ h]
    refine ⟨_, rfl, rfl, rfl, Or.inl ⟨⟨_, rfl, rfl, rfl⟩, ?_⟩⟩
    rintro ⟨e, he, -, -⟩
    exact absurd he (by simp)

/-- Claim C8: the `latency_ms` of the emitted log record is the elapsed time
between the reading taken before handler invocation and the one taken after
completion or failure, in milliseconds rounded to 2 decimal places, and is
non-negative whenever the second reading is not earlier than the first. -/
theorem dispatch_latency (request_id : String) (t0 t1 : ℚ) (request : Request)
    (call_next : Request → Except String Response) (h : t0 ≤ t1) :
    ∀ rec ∈ (dispatch request_id t0 t1 request call_next).2,
      rec.latency_ms = round2 ((t1 - t0) * 1000) ∧ 0 ≤ rec.latency_ms := by
  have hnn : 0 ≤ round2 ((t1 - t0) * 1000) :=
    round2_nonneg (mul_nonneg (by linarith) (by norm_num))
  intro rec hrec
  cases hc : call_next request with
  | error e =>
    rw [dispatch_of_error _ _ _ _ _ _ hc] at hrec
    simp at hrec
    subst hrec
    exact ⟨rfl, hnn⟩
  | ok response =>
    rw [dispatch_of_ok _ _ _ _ _ _ hc] at hrec
    simp at hrec
    subst hrec
    exact ⟨rfl, hnn⟩

/-- Witness for C8: a request served at readings 0 and 1. -/
theorem dispatch_latency_witness :
    (0 : ℚ) ≤ 1 ∧
    ∀ rec ∈ (dispatch "rid-8" 0 1 { method := "GET", path := "/health" }
        (fun _ => .ok { status_code := 200, headers := [] })).2,
      rec.latency_ms = round2 ((1 - 0) * 1000) ∧ 0 ≤ rec.latency_ms :=
  ⟨by norm_num,
   dispatch_latency "rid-8" 0 1 { method := "GET", path := "/health" }
     (fun _ => .ok { status_code := 200, headers := [] }) (by norm_num)⟩

/-- Claim C7: `GET /info` reports the configured service name, version
"1.0.0" and the configured git SHA (or none); with clock readings that do
not precede the startup reading and do not decrease, `uptime_seconds` is
non-negative and monotonically non-decreasing across calls. -/
theorem get_info_props (s : Settings) (startup t1 t2 : ℚ)
    (h0 : startup ≤ t1) (h1 : t1 ≤ t2) :
    (get_info s startup t1).service_name = s.SERVICE_NAME ∧
    (get_info s startup t1).version = "1.0.0" ∧
    (get_info s startup t1).git_sha = s.GIT_SHA ∧
    0 ≤ (get_info s startup t1).uptime_seconds ∧
    (get_info s startup t1).uptime_seconds ≤ (get_info s startup t2).uptime_seconds := by
  refine ⟨rfl, rfl, rfl, ?_, ?_⟩
  · exact round2_nonneg (by linarith)
  · exact round2_mono (by linarith)

/-- Witness for C7 at startup reading 0 and call readings 1 and 2. -/
theorem get_info_props_witness :
    let s : Settings :=
      { SERVICE_NAME := "dockerized-api", ENV := "development", LOG_LEVEL := "INFO",
        GIT_SHA := none, HOST := "0.0.0.0", PORT := 8000 }
    (0 : ℚ) ≤ 1 ∧ (1 : ℚ) ≤ 2 ∧
    ((get_info s 0 1).service_name = s.SERVICE_NAME ∧
     (get_info s 0 1).version = "1.0.0" ∧
     (get_info s 0 1).git_sha = s.GIT_SHA ∧
     0 ≤ (get_info s 0 1).uptime_seconds ∧
     (get_info s 0 1).uptime_seconds ≤ (get_info s 0 2).uptime_seconds) :=
  ⟨by norm_num, by norm_num, get_info_props _ 0 1 2 (by norm_num) (by norm_num)⟩

/-- Counterexample for C1 as stated: it is not the case that every request,
success or failure alike, yields a response from the middleware carrying the
generated identifier in `X-Request-ID` — on an unhandled failure the
middleware re-raises and returns no response at all, so no header is
attached anywhere in the application. -/
theorem dispatch_header_cex :
    ¬ ∀ (request_id : String) (t0 t1 : ℚ) (request : Request)
        (call_next : Request → Except String Response),
      ∃ resp : Response,
        (dispatch request_id t0 t1 request call_next).1 = .ok resp ∧
        getHeader resp.headers "X-Request-ID" = some request_id := by
  intro hall
  obtain ⟨resp, h1, -⟩ := hall "cid" 0 0 { method := "GET", path := "/health" }
    (fun _ => .error "boom")
  rw [dispatch_of_error _ _ _ _ _ "boom" rfl] at h1
  exact absurd h1 (by simp)

/-- Claim C1 (amended): every request generates exactly one identifier,
present as the `request_id` of the single log record emitted; whenever the
handler chain returns a response, that response carries the identifier in
the `X-Request-ID` header; on an unhandled failure the original failure is
propagated and the middleware returns no response (the identifier still
appears in the error log record); two requests whose generated identifiers
differ never share a `request_id` in their log records. -/
theorem dispatch_request_id (rid1 rid2 : String) (t0 t1 u0 u1 : ℚ)
    (req1 req2 : Request) (cn1 cn2 : Request → Except String Response)
    (hne : rid1 ≠ rid2) :
    (dispatch rid1 t0 t1 req1 cn1).2.length = 1 ∧
    (∀ rec ∈ (dispatch rid1 t0 t1 req1 cn1).2, rec.request_id = rid1) ∧
    (∀ resp : Response, (dispatch rid1 t0 t1 req1 cn1).1 = .ok resp →
      getHeader resp.headers "X-Request-ID" = some rid1) ∧
    (∀ e : String, cn1 req1 = .error e →
      (dispatch rid1 t0 t1 req1 cn1).1 = .error e) ∧
    (∀ rec1 ∈ (dispatch rid1 t0 t1 req1 cn1).2,
     ∀ rec2 ∈ (dispatch rid2 u0 u1 req2 cn2).2,
      rec1.request_id ≠ rec2.request_id) := by
  refine ⟨?_, dispatch_log_request_id _ _ _ _ _, ?_, ?_, ?_⟩
  · cases h : cn1 req1 with
    | error e => rw [dispatch_of_error _ _ _ _ _ _ h]; rfl
    | ok response => rw [dispatch_of_ok _ _ _ _ _ _ h]; rfl
  · intro resp hresp
    cases h : cn1 req1 with
    | error e =>
      rw [dispatch_of_error _ _ _ _ _ _ h] at hresp
      exact absurd hresp (by simp)
    | ok response =>
      rw [dispatch_of_ok _ _ _ _ _ _ h] at hresp
      simp only [Except.ok.injEq] at hresp
      subst hresp
      exact getHeader_setHeader response.headers "X-Request-ID" rid1
  · intro e he
    rw [dispatch_of_error _ _ _ _ _ _ he]
  · intro rec1 h1 rec2 h2
    rw [dispatch_log_request_id rid1 t0 t1 req1 cn1 rec1 h1,
        dispatch_log_request_id rid2 u0 u1 req2 cn2 rec2 h2]
    exact hne

/-- Witness for C1 at two concrete requests, one succeeding and one
failing, with distinct generated identifiers. -/
theorem dispatch_request_id_witness :
    "rid-a" ≠ "rid-b" ∧
    ((dispatch "rid-a" 0 1 { method := "GET", path := "/health" }
        (fun _ => .ok { status_code := 200, headers := [] })).2.length = 1 ∧
     (∀ rec ∈ (dispatch "rid-a" 0 1 { method := "GET", path := "/health" }
        (fun _ => .ok { status_code := 200, headers := [] })).2,
       rec.request_id = "rid-a") ∧
     (∀ resp : Response,
       (dispatch "rid-a" 0 1 { method := "GET", path := "/health" }
        (fun _ => .ok { status_code := 200, headers := [] })).1 = .ok resp →
       getHeader resp.headers "X-Request-ID" = some "rid-a") ∧
     (∀ e : String,
       (fun (_ : Request) => (.ok { status_code := 200, headers := [] } :
          Except String Response)) { method := "GET", path := "/health" } = .error e →
       (dispatch "rid-a" 0 1 { method := "GET", path := "/health" }
        (fun _ => .ok { status_code := 200, headers := [] })).1 = .error e) ∧
     (∀ rec1 ∈ (dispatch "rid-a" 0 1 { method := "GET", path := "/health" }
        (fun _ => .ok { status_code := 200, headers := [] })).2,
      ∀ rec2 ∈ (dispatch "rid-b" 0 1 { method := "POST", path := "/echo" }
        (fun _ => .error "boom")).2,
       rec1.request_id ≠ rec2.request_id)) :=
  ⟨by decide,
   dispatch_request_id "rid-a" "rid-b" 0 1 0 1
     { method := "GET", path := "/health" } { method := "POST", path := "/echo" }
     (fun _ => .ok { status_code := 200, headers := [] })
     (fun _ => .error "boom") (by decide)⟩

end DockerizedApi
